import Mathlib

/-!
Verification of the `roombinauraliser` example of the Spatial_Audio_Framework
repository (files `roombinauraliser.c`, `roombinauraliser_internal.c/h`).

The C code is shallow-embedded below: machine `float` arithmetic is idealised
as exact rational (`ℚ`) or real (`ℝ`) arithmetic, C `int` casts are modelled
as truncation toward zero, and nullable pointers as `Option`.  Collaborator
functions of the surrounding framework that are not part of these files
(VBAP gain-table generation/compression, grid-weight computation, the afSTFT
transform) are modelled from their documented contracts and are marked as
such in their doc comments.
-/

namespace RoomBinauraliser

/-- Truncation toward zero, the behaviour of a C `(int)` cast applied to a
(real-valued) expression. -/
def ctrunc (q : ℚ) : ℤ := if 0 ≤ q then ⌊q⌋ else ⌈q⌉

/-- Modelled from the spec: `matlab_fmodf` (a SAF utility not under `src/`),
the wrap of `x` into `[0, y)` for a positive modulus `y`, used by the grid
snap (`fmod(azimuth_deg + 180, 360)`) and by the ITD phase wrap
(`wrap(2*pi*f*itd + pi, 2*pi)`). -/
def matlabFmod (x y : ℚ) : ℚ := x - y * ⌊x / y⌋

theorem matlabFmod_nonneg (x : ℚ) {y : ℚ} (hy : 0 < y) : 0 ≤ matlabFmod x y := by
  have h := Int.sub_floor_div_mul_nonneg x hy
  simpa [matlabFmod, mul_comm] using h

theorem matlabFmod_lt (x : ℚ) {y : ℚ} (hy : 0 < y) : matlabFmod x y < y := by
  have h := Int.sub_floor_div_mul_lt x hy
  simpa [matlabFmod, mul_comm] using h

theorem ctrunc_eq_floor {q : ℚ} (h : 0 ≤ q) : ctrunc q = ⌊q⌋ := by
  simp [ctrunc, h]

/- ================== C7: source azimuth wrap / elevation clamp ———————— -/

/-- Embedding of `roombinauraliser_setSourceAzi_deg` (roombinauraliser.c,
lines 299-311): a value above 180 is folded by adding -360; the result is
then clamped to [-180, 180] via `SAF_MAX`/`SAF_MIN`. -/
def roombinauraliser_setSourceAzi_deg (newAzi_deg : ℚ) : ℚ :=
  let a := if newAzi_deg > 180 then -360 + newAzi_deg else newAzi_deg
  min (max a (-180)) 180

/-- Embedding of `roombinauraliser_setSourceElev_deg` (roombinauraliser.c,
lines 313-323): clamp to [-90, 90]. -/
def roombinauraliser_setSourceElev_deg (newElev_deg : ℚ) : ℚ :=
  min (max newElev_deg (-90)) 90

/-- Claim C7: every stored azimuth lies in [-180, 180]; a value above 180
(such as 190) is folded by subtracting 360 (to -170), while a value below
-180 (such as -190) is not wrapped upward but lands on the boundary through
the clamp; elevation is clamped to [-90, 90]. -/
theorem setSourceAzi_wraps_setSourceElev_clamps :
    (∀ a : ℚ, -180 ≤ roombinauraliser_setSourceAzi_deg a ∧
      roombinauraliser_setSourceAzi_deg a ≤ 180)
    ∧ roombinauraliser_setSourceAzi_deg 190 = -170
    ∧ roombinauraliser_setSourceAzi_deg (-190) = -180
    ∧ (∀ e : ℚ, -90 ≤ roombinauraliser_setSourceElev_deg e ∧
      roombinauraliser_setSourceElev_deg e ≤ 90) := by
  refine ⟨fun a => ⟨?_, ?_⟩, by norm_num [roombinauraliser_setSourceAzi_deg],
    by norm_num [roombinauraliser_setSourceAzi_deg], fun e => ⟨?_, ?_⟩⟩
  · simp only [roombinauraliser_setSourceAzi_deg, le_min_iff, le_max_iff]
    exact ⟨Or.inr le_rfl, by norm_num⟩
  · exact min_le_right _ _
  · simp only [roombinauraliser_setSourceElev_deg, le_min_iff, le_max_iff]
    exact ⟨Or.inr le_rfl, by norm_num⟩
  · exact min_le_right _ _

/- ================== C9: source count clamp ——————————————————————————— -/

/-- Modelled from the spec: `MAX_NUM_INPUTS` is defined in the framework
header `_common.h`, which is not under `src/`; the spec states the engine
takes "up to 64 mono audio sources". -/
def MAX_NUM_INPUTS : ℤ := 64

/-- Modelled from the spec: the framework clamping macro `SAF_CLAMP(a,lo,hi)`
(not under `src/`), clamping `a` into `[lo, hi]`. -/
def SAF_CLAMP (a lo hi : ℤ) : ℤ := max lo (min hi a)

/-- The slice of the instance state read and written by
`roombinauraliser_setNumSources` / `roombinauraliser_getNumSources`. -/
structure SourceCountState where
  new_nSources : ℤ

/-- Embedding of `roombinauraliser_setNumSources` (roombinauraliser.c, lines
325-331): `new_nSources = SAF_CLAMP(new_nSources, 1, MAX_NUM_INPUTS)`. -/
def roombinauraliser_setNumSources (s : SourceCountState) (n : ℤ) :
    SourceCountState :=
  { s with new_nSources := SAF_CLAMP n 1 MAX_NUM_INPUTS }

/-- Embedding of `roombinauraliser_getNumSources` (roombinauraliser.c, lines
519-523): returns `new_nSources`. -/
def roombinauraliser_getNumSources (s : SourceCountState) : ℤ :=
  s.new_nSources

/-- Claim C9: after `setNumSources(n)`, the stored (and returned) requested
source count is `n` clamped to [1, MAX_NUM_INPUTS]; 0 or a negative request
yields 1 and a request above the maximum yields MAX_NUM_INPUTS. -/
theorem setNumSources_clamps :
    ∀ (s : SourceCountState) (n : ℤ),
      roombinauraliser_getNumSources (roombinauraliser_setNumSources s n)
          = max 1 (min MAX_NUM_INPUTS n)
      ∧ 1 ≤ roombinauraliser_getNumSources (roombinauraliser_setNumSources s n)
      ∧ roombinauraliser_getNumSources (roombinauraliser_setNumSources s n)
          ≤ MAX_NUM_INPUTS
      ∧ (n ≤ 0 →
          roombinauraliser_getNumSources (roombinauraliser_setNumSources s n) = 1)
      ∧ (MAX_NUM_INPUTS < n →
          roombinauraliser_getNumSources (roombinauraliser_setNumSources s n)
            = MAX_NUM_INPUTS) := by
  intro s n
  have hval : roombinauraliser_getNumSources (roombinauraliser_setNumSources s n)
      = max 1 (min MAX_NUM_INPUTS n) := rfl
  rw [hval]
  refine ⟨rfl, le_max_left _ _,
    max_le (by norm_num [MAX_NUM_INPUTS]) (min_le_left _ _), ?_, ?_⟩
  · intro hn
    exact max_eq_left (le_trans (min_le_right _ _) (by omega))
  · intro hn
    rw [min_eq_left (le_of_lt hn)]
    exact max_eq_right (by norm_num [MAX_NUM_INPUTS])

/- ================== C1: process() silence guard —————————————————————— -/

/-- Codec status enumeration (`CODEC_STATUS` of the framework `_common.h`). -/
inductive CODEC_STATUS where
  | notInitialised
  | initialising
  | initialised
deriving DecidableEq, Repr

/-- Processing status enumeration (`PROC_STATUS`). -/
inductive PROC_STATUS where
  | notOngoing
  | ongoing
deriving DecidableEq, Repr

/-- Fixed frame size `roombinauraliser_FRAME_SIZE`
(roombinauraliser_internal.h, line 55): 128 time-domain samples. -/
def roombinauraliser_FRAME_SIZE : ℕ := 128

/-- Result of one `roombinauraliser_process` call: the host output buffers
(channel index, sample index) and the processing status left behind. -/
structure ProcessResult where
  outputs : ℕ → ℕ → ℚ
  procStatusAfter : PROC_STATUS

/-- Embedding of the guard structure of `roombinauraliser_process`
(roombinauraliser.c, lines 191-285).  The DSP pipeline of the then-branch
(forward afSTFT, interpolation, convolution, inverse afSTFT) is abstracted as
the collaborator-backed function `outframeTD` producing the stereo frame; the
claim under verification only concerns the else-branch.  The else-branch is
the literal `memset(outputs[ch], 0, roombinauraliser_FRAME_SIZE*sizeof(float))`
loop over `ch < nOutputs`; it contains no polling loop and never waits on
`initCodec` (the embedding is a total function), and `procStatus` is set to
`PROC_STATUS_NOT_ONGOING` on both paths before returning. -/
def roombinauraliser_process
    (codecStatus : CODEC_STATUS) (hrtf_fb : Option Unit)
    (outframeTD : ℕ → ℕ → ℚ) (nOutputs nSamples : ℕ) : ProcessResult :=
  if nSamples = roombinauraliser_FRAME_SIZE ∧ hrtf_fb.isSome
      ∧ codecStatus = CODEC_STATUS.initialised then
    { outputs := fun ch i =>
        if ch < min 2 nOutputs then outframeTD ch i else 0,
      procStatusAfter := PROC_STATUS.notOngoing }
  else
    { outputs := fun _ _ => 0,
      procStatusAfter := PROC_STATUS.notOngoing }

/-- Claim C1: if `nSamples` differs from the fixed frame size, or the HRTF
filterbank table is NULL, or the codec status is not INITIALISED, every one
of the `nOutputs` output channels is zero-filled for that call, and the call
returns (leaving `procStatus` at NOT_ONGOING) without waiting for
`initCodec`. -/
theorem process_silences_when_not_ready
    (codecStatus : CODEC_STATUS) (hrtf_fb : Option Unit)
    (outframeTD : ℕ → ℕ → ℚ) (nOutputs nSamples : ℕ)
    (h : nSamples ≠ roombinauraliser_FRAME_SIZE ∨ hrtf_fb = none
      ∨ codecStatus ≠ CODEC_STATUS.initialised) :
    (∀ ch < nOutputs, ∀ i < roombinauraliser_FRAME_SIZE,
      (roombinauraliser_process codecStatus hrtf_fb outframeTD
        nOutputs nSamples).outputs ch i = 0)
    ∧ (roombinauraliser_process codecStatus hrtf_fb outframeTD
        nOutputs nSamples).procStatusAfter = PROC_STATUS.notOngoing := by
  have hguard : ¬(nSamples = roombinauraliser_FRAME_SIZE ∧ hrtf_fb.isSome
      ∧ codecStatus = CODEC_STATUS.initialised) := by
    rintro ⟨h1, h2, h3⟩
    rcases h with h | h | h
    · exact h h1
    · rw [h] at h2; simp at h2
    · exact h h3
  constructor
  · intro ch _ i _
    simp [roombinauraliser_process, hguard]
  · simp [roombinauraliser_process, hguard]

/-- Witness for C1 at a concrete not-ready input: a 64-sample call with an
available table and an initialised codec is silenced. -/
theorem process_silences_when_not_ready_witness :
    ((64 ≠ roombinauraliser_FRAME_SIZE ∨ (some () : Option Unit) = none
      ∨ CODEC_STATUS.initialised ≠ CODEC_STATUS.initialised)
    ∧ ((∀ ch < 2, ∀ i < roombinauraliser_FRAME_SIZE,
      (roombinauraliser_process CODEC_STATUS.initialised (some ())
        (fun _ _ => 1) 2 64).outputs ch i = 0)
    ∧ (roombinauraliser_process CODEC_STATUS.initialised (some ())
        (fun _ _ => 1) 2 64).procStatusAfter = PROC_STATUS.notOngoing)) :=
  ⟨Or.inl (by decide),
   process_silences_when_not_ready CODEC_STATUS.initialised (some ())
     (fun _ _ => 1) 2 64 (Or.inl (by decide))⟩

/- ================== C10: rotation setter/getter round-trip ——————————— -/

/-- Modelled from the spec: the framework degree-to-radian macro
`DEG2RAD(x) = x * SAF_PI / 180` (not under `src/`). -/
noncomputable def DEG2RAD (x : ℝ) : ℝ := x * Real.pi / 180

/-- Modelled from the spec: the framework radian-to-degree macro
`RAD2DEG(x) = x * 180 / SAF_PI` (not under `src/`). -/
noncomputable def RAD2DEG (x : ℝ) : ℝ := x * 180 / Real.pi

theorem RAD2DEG_DEG2RAD (x : ℝ) : RAD2DEG (DEG2RAD x) = x := by
  unfold RAD2DEG DEG2RAD
  field_simp

theorem RAD2DEG_neg (x : ℝ) : RAD2DEG (-x) = -RAD2DEG x := by
  unfold RAD2DEG
  ring

/-- The slice of the instance state used by the yaw/pitch/roll setters and
getters: the stored angles (radians) and the per-axis flip flags (C `int`). -/
structure RotState where
  yaw : ℝ
  pitch : ℝ
  roll : ℝ
  bFlipYaw : ℤ
  bFlipPitch : ℤ
  bFlipRoll : ℤ

/-- Embedding of `roombinauraliser_setYaw` (roombinauraliser.c, lines
384-389): stores `-DEG2RAD(newYaw)` when the flip flag equals 1, else
`+DEG2RAD(newYaw)`. -/
noncomputable def roombinauraliser_setYaw (s : RotState) (newYaw : ℝ) : RotState :=
  { s with yaw := if s.bFlipYaw = 1 then -(DEG2RAD newYaw) else DEG2RAD newYaw }

/-- Embedding of `roombinauraliser_getYaw` (roombinauraliser.c, lines
610-614): returns `-RAD2DEG(yaw)` when the flip flag equals 1, else
`+RAD2DEG(yaw)`. -/
noncomputable def roombinauraliser_getYaw (s : RotState) : ℝ :=
  if s.bFlipYaw = 1 then -(RAD2DEG s.yaw) else RAD2DEG s.yaw

/-- Embedding of `roombinauraliser_setPitch` (roombinauraliser.c, lines
391-396). -/
noncomputable def roombinauraliser_setPitch (s : RotState) (newPitch : ℝ) : RotState :=
  { s with pitch := if s.bFlipPitch = 1 then -(DEG2RAD newPitch) else DEG2RAD newPitch }

/-- Embedding of `roombinauraliser_getPitch` (roombinauraliser.c, lines
616-620). -/
noncomputable def roombinauraliser_getPitch (s : RotState) : ℝ :=
  if s.bFlipPitch = 1 then -(RAD2DEG s.pitch) else RAD2DEG s.pitch

/-- Embedding of `roombinauraliser_setRoll` (roombinauraliser.c, lines
398-403). -/
noncomputable def roombinauraliser_setRoll (s : RotState) (newRoll : ℝ) : RotState :=
  { s with roll := if s.bFlipRoll = 1 then -(DEG2RAD newRoll) else DEG2RAD newRoll }

/-- Embedding of `roombinauraliser_getRoll` (roombinauraliser.c, lines
622-626). -/
noncomputable def roombinauraliser_getRoll (s : RotState) : ℝ :=
  if s.bFlipRoll = 1 then -(RAD2DEG s.roll) else RAD2DEG s.roll

/-- Claim C10: for every angle and every state of the corresponding flip
flag, set-then-get returns the angle unchanged (the two sign flips cancel
and the degree-radian-degree conversion is the identity); this holds for
yaw, pitch and roll alike. -/
theorem rotation_set_get_roundtrip (s : RotState) (x : ℝ) :
    roombinauraliser_getYaw (roombinauraliser_setYaw s x) = x
    ∧ roombinauraliser_getPitch (roombinauraliser_setPitch s x) = x
    ∧ roombinauraliser_getRoll (roombinauraliser_setRoll s x) = x := by
  refine ⟨?_, ?_, ?_⟩
  · by_cases h : s.bFlipYaw = 1 <;>
      simp [roombinauraliser_getYaw, roombinauraliser_setYaw, h,
        RAD2DEG_neg, RAD2DEG_DEG2RAD]
  · by_cases h : s.bFlipPitch = 1 <;>
      simp [roombinauraliser_getPitch, roombinauraliser_setPitch, h,
        RAD2DEG_neg, RAD2DEG_DEG2RAD]
  · by_cases h : s.bFlipRoll = 1 <;>
      simp [roombinauraliser_getRoll, roombinauraliser_setRoll, h,
        RAD2DEG_neg, RAD2DEG_DEG2RAD]

/- ================== C8 and C3: the gain-table grid snap —————————————— -/

/-- Azimuth grid resolution `hrtf_vbapTableRes[0]`, set to 2 degrees by
`roombinauraliser_initHRTFsAndGainTables` (roombinauraliser_internal.c,
line 320). -/
def hrtf_vbapTableRes0 : ℚ := 2

/-- Elevation grid resolution `hrtf_vbapTableRes[1]`, set to 5 degrees
(roombinauraliser_internal.c, line 321). -/
def hrtf_vbapTableRes1 : ℚ := 5

/-- Embedding of `N_azi = (int)(360.0f / aziRes + 0.5f) + 1`
(roombinauraliser_internal.c, line 66). -/
def N_azi : ℤ := ctrunc (360 / hrtf_vbapTableRes0 + 1 / 2) + 1

/-- Embedding of
`aziIndex = (int)(matlab_fmodf(azimuth_deg + 180.0f, 360.0f) / aziRes + 0.5f)`
(roombinauraliser_internal.c, line 67). -/
def aziIndex (azimuth_deg : ℚ) : ℤ :=
  ctrunc (matlabFmod (azimuth_deg + 180) 360 / hrtf_vbapTableRes0 + 1 / 2)

/-- Embedding of `elevIndex = (int)((elevation_deg + 90.0f) / elevRes + 0.5f)`
forced to 0 when `VBAP_3d_FLAG` is unset (roombinauraliser_internal.c,
lines 68-70). -/
def elevIndex (elevation_deg : ℚ) (VBAP_3d_FLAG : Bool) : ℤ :=
  if VBAP_3d_FLAG then ctrunc ((elevation_deg + 90) / hrtf_vbapTableRes1 + 1 / 2)
  else 0

/-- Embedding of `idx3d = elevIndex * N_azi + aziIndex`
(roombinauraliser_internal.c, line 71). -/
def idx3d (azimuth_deg elevation_deg : ℚ) (VBAP_3d_FLAG : Bool) : ℤ :=
  elevIndex elevation_deg VBAP_3d_FLAG * N_azi + aziIndex azimuth_deg

theorem aziIndex_nonneg (azi : ℚ) : 0 ≤ aziIndex azi := by
  have hm : 0 ≤ matlabFmod (azi + 180) 360 := matlabFmod_nonneg _ (by norm_num)
  have hq : 0 ≤ matlabFmod (azi + 180) 360 / hrtf_vbapTableRes0 + 1 / 2 := by
    have : 0 ≤ matlabFmod (azi + 180) 360 / hrtf_vbapTableRes0 :=
      div_nonneg hm (by norm_num [hrtf_vbapTableRes0])
    linarith
  rw [aziIndex, ctrunc_eq_floor hq]
  exact Int.le_floor.mpr (by exact_mod_cast hq)

theorem aziIndex_le (azi : ℚ) : aziIndex azi ≤ 180 := by
  have hm : matlabFmod (azi + 180) 360 < 360 := matlabFmod_lt _ (by norm_num)
  have hm0 : 0 ≤ matlabFmod (azi + 180) 360 := matlabFmod_nonneg _ (by norm_num)
  have hq0 : 0 ≤ matlabFmod (azi + 180) 360 / hrtf_vbapTableRes0 + 1 / 2 := by
    have : 0 ≤ matlabFmod (azi + 180) 360 / hrtf_vbapTableRes0 :=
      div_nonneg hm0 (by norm_num [hrtf_vbapTableRes0])
    linarith
  have hq : matlabFmod (azi + 180) 360 / hrtf_vbapTableRes0 + 1 / 2 < 181 := by
    rw [hrtf_vbapTableRes0]
    nlinarith
  rw [aziIndex, ctrunc_eq_floor hq0]
  have := Int.floor_lt.mpr (by exact_mod_cast hq :
    matlabFmod (azi + 180) 360 / hrtf_vbapTableRes0 + 1 / 2 < ((181 : ℤ) : ℚ))
  omega

theorem elevIndex_nonneg {elev : ℚ} (h : -90 ≤ elev) (flag : Bool) :
    0 ≤ elevIndex elev flag := by
  cases flag with
  | false => simp [elevIndex]
  | true =>
    have hq : 0 ≤ (elev + 90) / hrtf_vbapTableRes1 + 1 / 2 := by
      have : 0 ≤ (elev + 90) / hrtf_vbapTableRes1 :=
        div_nonneg (by linarith) (by norm_num [hrtf_vbapTableRes1])
      linarith
    rw [elevIndex, if_pos rfl, ctrunc_eq_floor hq]
    exact Int.le_floor.mpr (by exact_mod_cast hq)

theorem elevIndex_le {elev : ℚ} (h : -90 ≤ elev) (h2 : elev ≤ 90) :
    elevIndex elev true ≤ 36 := by
  have hq0 : 0 ≤ (elev + 90) / hrtf_vbapTableRes1 + 1 / 2 := by
    have : 0 ≤ (elev + 90) / hrtf_vbapTableRes1 :=
      div_nonneg (by linarith) (by norm_num [hrtf_vbapTableRes1])
    linarith
  have hq : (elev + 90) / hrtf_vbapTableRes1 + 1 / 2 < 37 := by
    rw [hrtf_vbapTableRes1]
    nlinarith
  rw [elevIndex, if_pos rfl, ctrunc_eq_floor hq0]
  have := Int.floor_lt.mpr (by exact_mod_cast hq :
    (elev + 90) / hrtf_vbapTableRes1 + 1 / 2 < ((37 : ℤ) : ℚ))
  omega

theorem N_azi_eq : N_azi = 181 := by
  have h : ctrunc (360 / hrtf_vbapTableRes0 + 1 / 2) = 180 := by
    rw [ctrunc_eq_floor (by norm_num [hrtf_vbapTableRes0])]
    rw [Int.floor_eq_iff]
    norm_num [hrtf_vbapTableRes0]
  rw [N_azi, h]
  norm_num

/-- Claim C8: the grid cell is computed by nearest-bin rounding
(`round` is round-half-up, exactly the C idiom `(int)(x + 0.5f)` for the
non-negative operands arising here): `aziIndex = round(fmod(azi+180,360)/azRes)`,
`elevIndex = round((elev+90)/elevRes)` forced to 0 in 2-D mode, and the flat
index is `elevIndex * N_azi + aziIndex` with `N_azi = round(360/azRes) + 1`. -/
theorem gridSnap_nearest_bin (azi elev : ℚ) (flag : Bool) (helev : -90 ≤ elev) :
    aziIndex azi = round (matlabFmod (azi + 180) 360 / hrtf_vbapTableRes0)
    ∧ elevIndex elev true = round ((elev + 90) / hrtf_vbapTableRes1)
    ∧ elevIndex elev false = 0
    ∧ idx3d azi elev flag = elevIndex elev flag * N_azi + aziIndex azi
    ∧ N_azi = round ((360 : ℚ) / hrtf_vbapTableRes0) + 1 := by
  refine ⟨?_, ?_, rfl, rfl, ?_⟩
  · have hm0 : 0 ≤ matlabFmod (azi + 180) 360 := matlabFmod_nonneg _ (by norm_num)
    have hq0 : 0 ≤ matlabFmod (azi + 180) 360 / hrtf_vbapTableRes0 + 1 / 2 := by
      have : 0 ≤ matlabFmod (azi + 180) 360 / hrtf_vbapTableRes0 :=
        div_nonneg hm0 (by norm_num [hrtf_vbapTableRes0])
      linarith
    rw [aziIndex, ctrunc_eq_floor hq0, round_eq]
  · have hq0 : 0 ≤ (elev + 90) / hrtf_vbapTableRes1 + 1 / 2 := by
      have : 0 ≤ (elev + 90) / hrtf_vbapTableRes1 :=
        div_nonneg (by linarith) (by norm_num [hrtf_vbapTableRes1])
      linarith
    rw [elevIndex, if_pos rfl, ctrunc_eq_floor hq0, round_eq]
  · rw [N_azi_eq, round_eq]
    norm_num [hrtf_vbapTableRes0]

/-- Witness for C8 at azimuth 30, elevation 15, 3-D mode. -/
theorem gridSnap_nearest_bin_witness :
    (-90 : ℚ) ≤ 15
    ∧ (aziIndex 30 = round (matlabFmod ((30 : ℚ) + 180) 360 / hrtf_vbapTableRes0)
      ∧ elevIndex 15 true = round (((15 : ℚ) + 90) / hrtf_vbapTableRes1)
      ∧ elevIndex 15 false = 0
      ∧ idx3d 30 15 true = elevIndex 15 true * N_azi + aziIndex 30
      ∧ N_azi = round ((360 : ℚ) / hrtf_vbapTableRes0) + 1) :=
  ⟨by norm_num, gridSnap_nearest_bin 30 15 true (by norm_num)⟩

/-- Modelled from the spec: the compressed VBAP interpolation gain table
`hrtf_vbap_gtableComp` / `hrtf_vbap_gtableIdx`.  It is produced by the
external triangulation collaborator (`generateVBAPgainTable2D/3D` followed by
`compressVBAPgainTable3D`), which is not under `src/`; per the spec (sections
4.3 and 4.4) each grid cell holds 3 (direction-index, weight) pairs whose
weights are non-negative and normalised to sum 1. -/
structure GainTableComp where
  comp : ℕ → Fin 3 → ℚ
  idx : ℕ → Fin 3 → ℕ
  comp_nonneg : ∀ c i, 0 ≤ comp c i
  comp_sum_one : ∀ c, comp c 0 + comp c 1 + comp c 2 = 1

/-- Claim C3: for every valid query direction (azimuth in [-180,180],
elevation in [-90,90]) the snapped cell index is a valid row of the gain
table (181*37 = 6697 rows in 3-D mode, 181 in 2-D mode), and the three
interpolation weights read from `hrtf_vbap_gtableComp` at that row are each
non-negative and sum to 1 within tolerance 1e-5. -/
theorem gainTable_lookup_weights (T : GainTableComp) (flag : Bool) (azi elev : ℚ)
    (h1 : -180 ≤ azi) (h2 : azi ≤ 180) (h3 : -90 ≤ elev) (h4 : elev ≤ 90) :
    0 ≤ idx3d azi elev flag
    ∧ idx3d azi elev flag < (if flag then 6697 else 181)
    ∧ (∀ i : Fin 3, 0 ≤ T.comp (idx3d azi elev flag).toNat i)
    ∧ |T.comp (idx3d azi elev flag).toNat 0 + T.comp (idx3d azi elev flag).toNat 1
        + T.comp (idx3d azi elev flag).toNat 2 - 1| ≤ 1 / 100000 := by
  have ha0 := aziIndex_nonneg azi
  have ha1 := aziIndex_le azi
  have he0 := elevIndex_nonneg h3 flag
  have hidx : 0 ≤ idx3d azi elev flag ∧ idx3d azi elev flag
      < (if flag then 6697 else 181) := by
    cases flag with
    | false =>
      have hE : elevIndex elev false = 0 := rfl
      rw [idx3d, hE, zero_mul, zero_add]
      refine ⟨ha0, ?_⟩
      show aziIndex azi < 181
      omega
    | true =>
      have he1 := elevIndex_le h3 h4
      simp only [idx3d, N_azi_eq, if_true]
      constructor
      · have : 0 ≤ elevIndex elev true * 181 := by positivity
        omega
      · have he0t : 0 ≤ elevIndex elev true := he0
        nlinarith [he1, ha1, ha0, he0t]
  refine ⟨hidx.1, hidx.2, fun i => T.comp_nonneg _ i, ?_⟩
  rw [T.comp_sum_one]
  norm_num

/-- Concrete gain table used by the witness for C3: weight 1 on the first
neighbour of every cell. -/
def unitGainTableComp : ℕ → Fin 3 → ℚ := fun _ i => if i = 0 then 1 else 0

def unitGainTable : GainTableComp where
  comp := unitGainTableComp
  idx := fun _ _ => 0
  comp_nonneg := by
    intro c i
    unfold unitGainTableComp
    split_ifs <;> norm_num
  comp_sum_one := by
    intro c
    unfold unitGainTableComp
    norm_num
    decide

/-- Witness for C3 at azimuth 30, elevation 15, 3-D mode, on a concrete
normalised table. -/
theorem gainTable_lookup_weights_witness :
    ((-180 : ℚ) ≤ 30 ∧ (30 : ℚ) ≤ 180 ∧ (-90 : ℚ) ≤ 15 ∧ (15 : ℚ) ≤ 90)
    ∧ (0 ≤ idx3d 30 15 true
      ∧ idx3d 30 15 true < (if true then 6697 else 181)
      ∧ (∀ i : Fin 3, 0 ≤ unitGainTable.comp (idx3d 30 15 true).toNat i)
      ∧ |unitGainTable.comp (idx3d 30 15 true).toNat 0
          + unitGainTable.comp (idx3d 30 15 true).toNat 1
          + unitGainTable.comp (idx3d 30 15 true).toNat 2 - 1| ≤ 1 / 100000) :=
  ⟨by norm_num,
   gainTable_lookup_weights unitGainTable true 30 15
     (by norm_num) (by norm_num) (by norm_num) (by norm_num)⟩

/- ================== C4: 2-D/3-D dimensionality decision —————————————— -/

/-- Embedding of `fabsf`, the C single-precision absolute value used by the
dimensionality decision. -/
def fabsf (x : ℚ) : ℚ := if x < 0 then -x else x

/-- Embedding of the framework macro `SAF_MIN(a,b) = (a < b ? a : b)` at
rational type. -/
def SAF_MINq (a b : ℚ) : ℚ := if a < b then a else b

/-- Embedding of the framework macro `SAF_MAX(a,b) = (a > b ? a : b)` at
rational type. -/
def SAF_MAXq (a b : ℚ) : ℚ := if a > b then a else b

/-- Embedding of the elevation min/max scan of
`roombinauraliser_initHRTFsAndGainTables` (roombinauraliser_internal.c,
lines 324-329): `for (int i = 1; i < N_hrir_dirs; i += 2)` over the FLAT
`hrir_dirs_deg` array (interleaved azimuth/elevation pairs), with
accumulators initialised to `elevation_min = +90`, `elevation_max = -90`.
Note the loop bound in the source is `N_hrir_dirs`, not the flat array
length `2 * N_hrir_dirs`. -/
def elevScan (hrir_dirs_deg : List ℚ) (N_hrir_dirs : ℕ) : ℚ × ℚ :=
  (List.range N_hrir_dirs).foldl
    (fun mm i =>
      if i % 2 = 1 then
        (SAF_MINq mm.1 (hrir_dirs_deg.getD i 0),
         SAF_MAXq mm.2 (hrir_dirs_deg.getD i 0))
      else mm)
    (90, -90)

/-- Embedding of the 2-D/3-D VBAP dimensionality decision
(roombinauraliser_internal.c, lines 322-340): `VBAP_3d_FLAG` starts at 1 and
is cleared (2-D mode, `generateVBAPgainTable2D`) exactly when
`|(elevation_min+90)/180 - (elevation_max+90)/180| < 1e-6`. -/
def VBAP_3d_FLAG_decision (hrir_dirs_deg : List ℚ) (N_hrir_dirs : ℕ) : Bool :=
  let mm := elevScan hrir_dirs_deg N_hrir_dirs
  if fabsf ((mm.1 + 90) / 180 - (mm.2 + 90) / 180) < 1 / 1000000 then false
  else true

/-- Decision rule as the claim states it (for comparison with the source):
minimum and maximum elevation over ALL HRIR directions, the elevation of
direction `d` sitting at flat index `2*d+1`. -/
def VBAP_3d_FLAG_claim (hrir_dirs_deg : List ℚ) (N_hrir_dirs : ℕ) : Bool :=
  let mn := (List.range N_hrir_dirs).foldl
    (fun m d => SAF_MINq m (hrir_dirs_deg.getD (2 * d + 1) 0)) 90
  let mx := (List.range N_hrir_dirs).foldl
    (fun m d => SAF_MAXq m (hrir_dirs_deg.getD (2 * d + 1) 0)) (-90)
  if fabsf ((mn + 90) / 180 - (mx + 90) / 180) < 1 / 1000000 then false
  else true

/-- Claim C4 (code-bug evidence): on four directions with elevations
0, 0, 30, 30, the source's scan — whose loop bound is `N_hrir_dirs` instead
of `2 * N_hrir_dirs` — only reads the elevations of the first two directions
and selects 2-D mode, while the claimed rule (min/max elevation over all
directions) sees an elevation-spanning set and selects 3-D mode.  Moreover a
single-direction set (all elevations trivially identical) makes the source's
loop body never run, so 3-D mode is selected where the claim requires 2-D. -/
theorem vbapDimensionDecision_bug :
    VBAP_3d_FLAG_decision [0, 0, 10, 0, 20, 30, 30, 30] 4 = false
    ∧ VBAP_3d_FLAG_claim [0, 0, 10, 0, 20, 30, 30, 30] 4 = true
    ∧ VBAP_3d_FLAG_decision [0, 0] 1 = true
    ∧ VBAP_3d_FLAG_claim [0, 0] 1 = false := by
  norm_num [VBAP_3d_FLAG_decision, VBAP_3d_FLAG_claim, elevScan, SAF_MINq,
    SAF_MAXq, fabsf, List.range_succ]

/- ================== C5: BRIR diffuse-field EQ on oversized grids ————— -/

/-- Observable outcome of the BRIR diffuse-field EQ step: whether a warning
was printed, the integration weights left in `pData->weights`, and whether
`diffuseFieldEqualiseHRTFs` was invoked on the HRTF filterbank. -/
structure BrirEqStepResult where
  warned : Bool
  weights : Option (List ℚ)
  eqInvoked : Bool
deriving DecidableEq, Repr

/-- Embedding of the `DIFF_EQ_BRIR_CTF` branch of
`roombinauraliser_initHRTFsAndGainTables` (roombinauraliser_internal.c,
lines 407-442).  The collaborator `calculateGridWeights` (not under `src/`)
is abstracted by the `gridWeights` argument: `some w` when it succeeds
(`supOrder >= 1`), `none` when it fails.  When the direction count exceeds
3600, or the weight computation fails, the code warns and sets
`pData->weights` to NULL — and then, in every path, still calls
`diffuseFieldEqualiseHRTFs(..., pData->weights, ...)` on the HRTF
filterbank coefficients (lines 440-441), recorded here as `eqInvoked`. -/
def brirDiffuseEqStep (N_hrir_dirs : ℕ) (gridWeights : Option (List ℚ)) :
    BrirEqStepResult :=
  if N_hrir_dirs ≤ 3600 then
    if gridWeights.isSome then
      { warned := false, weights := gridWeights, eqInvoked := true }
    else
      { warned := true, weights := none, eqInvoked := true }
  else
    { warned := true, weights := none, eqInvoked := true }

/-- Claim C5 counterexample: with 3601 HRIR directions the code emits the
warning but does NOT skip the equalisation step — `diffuseFieldEqualiseHRTFs`
is still invoked (with null weights) on the HRTF filterbank coefficients,
contrary to the claim that the coefficients are left unchanged by the EQ
step. -/
theorem brirDiffuseEqStep_not_skipped :
    (brirDiffuseEqStep 3601 (some [])).warned = true
    ∧ (brirDiffuseEqStep 3601 (some [])).eqInvoked = true := by
  decide

/-- Claim C5 amended: if the direction count exceeds 3600 or the grid-weight
computation fails, initialisation emits a warning, discards the integration
weights (leaving them null), and continues the pipeline — but the
diffuse-field EQ transform is still invoked (with null weights) rather than
skipped. -/
theorem brirDiffuseEqStep_warns_and_continues (N : ℕ) (gw : Option (List ℚ))
    (h : 3600 < N ∨ gw = none) :
    (brirDiffuseEqStep N gw).warned = true
    ∧ (brirDiffuseEqStep N gw).weights = none
    ∧ (brirDiffuseEqStep N gw).eqInvoked = true := by
  rcases h with h | h
  · simp [brirDiffuseEqStep, if_neg (by omega : ¬N ≤ 3600)]
  · subst h
    unfold brirDiffuseEqStep
    split_ifs with h1 h2
    · simp at h2
    · exact ⟨rfl, rfl, rfl⟩
    · exact ⟨rfl, rfl, rfl⟩

/-- Witness for the amended C5 at 3601 directions. -/
theorem brirDiffuseEqStep_warns_and_continues_witness :
    (3600 < 3601 ∨ (some ([] : List ℚ)) = none)
    ∧ ((brirDiffuseEqStep 3601 (some [])).warned = true
      ∧ (brirDiffuseEqStep 3601 (some [])).weights = none
      ∧ (brirDiffuseEqStep 3601 (some [])).eqInvoked = true) :=
  ⟨Or.inl (by decide),
   brirDiffuseEqStep_warns_and_continues 3601 (some []) (Or.inl (by decide))⟩

/- ================== C6: null gain table -> default-set retry ———————— -/

/-- Observable outcome of the gain-table slice of
`roombinauraliser_initHRTFsAndGainTables`: the final `useDefaultHRIRsFLAG`,
the table handed to the last `compressVBAPgainTable3D` call of the
OUTERMOST invocation (`none` models a NULL pointer), and whether the
bounded recursion ran out of fuel. -/
structure GainTableInitState where
  useDefaultHRIRsFLAG : Bool
  compressArg : Option (List ℚ)
  aborted : Bool
deriving DecidableEq, Repr

/-- Embedding of the fallback-by-recursion slice of
`roombinauraliser_initHRTFsAndGainTables` (roombinauraliser_internal.c,
lines 319-358).  `gen` abstracts `generateVBAPgainTable2D/3D` applied to the
direction set selected by the current `useDefaultHRIRsFLAG`.  Per invocation
the code: generates the table; if it is NULL, sets `useDefaultHRIRsFLAG = 1`
and recursively re-runs the whole initialisation (lines 343-347); and then —
by fall-through, there being no return after the recursive call — invokes
`compressVBAPgainTable3D` with the LOCAL `hrtf_vbap_gtable` variable of this
invocation (lines 349-353), which on the retry path is still NULL.  `fuel`
bounds the recursion, which the source itself does not. -/
def initGainTablesSlice (gen : Bool → Option (List ℚ)) :
    ℕ → GainTableInitState → GainTableInitState
  | 0, s => { s with aborted := true }
  | fuel + 1, s =>
    match gen s.useDefaultHRIRsFLAG with
    | some t => { s with compressArg := some t }
    | none =>
      let s1 := initGainTablesSlice gen fuel
        { s with useDefaultHRIRsFLAG := true }
      if s1.aborted then s1 else { s1 with compressArg := none }

/-- Concrete generator for the C6 evaluation: table generation fails for the
loaded HRIR set and succeeds for the embedded default set. -/
def genFailsThenDefault : Bool → Option (List ℚ) :=
  fun useDefault => if useDefault then some [1] else none

/-- Claim C6 (code-bug evidence): when generation returns a null table, the
code does set `useDefaultHRIRsFLAG` to 1 and recursively retries with the
default set (first conjunct, the part of the claim the code implements), but
the outer invocation then falls through and hands its own still-null local
table pointer to `compressVBAPgainTable3D` (second conjunct): the compressed
tables produced by the retry are re-written from a null table, so the
designed clean never-aborting fallback is not what this code implements. -/
theorem initGainTablesSlice_null_fallthrough :
    (initGainTablesSlice genFailsThenDefault 2
      { useDefaultHRIRsFLAG := false, compressArg := none,
        aborted := false }).useDefaultHRIRsFLAG = true
    ∧ (initGainTablesSlice genFailsThenDefault 2
      { useDefaultHRIRsFLAG := false, compressArg := none,
        aborted := false }).compressArg = none
    ∧ (initGainTablesSlice genFailsThenDefault 2
      { useDefaultHRIRsFLAG := false, compressArg := none,
        aborted := false }).aborted = false := by
  decide

/- ================== C2: magnitude/ITD phase reconstruction ——————————— -/

/-- Wrap `matlab_fmodf` over the reals (the SAF utility, modelled from the
spec as for `matlabFmod`): `x - y * ⌊x / y⌋`, the wrap of `x` into `[0, y)`
for positive `y`. -/
noncomputable def matlabFmodR (x y : ℝ) : ℝ := x - y * ⌊x / y⌋

/-- Embedding of the ITD interpolation of the `INTERP_TRI_PS` branch of
`roombinauraliser_interpHRTFs` (roombinauraliser_internal.c, lines 105-108):
`itdInterp = weights · itds3` (a 1x3 times 3x1 `cblas_sgemm`). -/
noncomputable def interpTriPS_itdInterp (weights itds3 : Fin 3 → ℝ) : ℝ :=
  ∑ i, weights i * itds3 i

/-- Embedding of the magnitude interpolation (roombinauraliser_internal.c,
lines 109-113), for one ear of one band: `magInterp = weights · magnitudes3`. -/
noncomputable def interpTriPS_magInterp (weights mags : Fin 3 → ℝ) : ℝ :=
  ∑ i, weights i * mags i

/-- Embedding of the inter-aural phase term of the `INTERP_TRI_PS` branch
(roombinauraliser_internal.c, lines 116-120): for a band whose centre
frequency is below 1500 Hz,
`ipd = cmplxf(0, (matlab_fmodf(2*pi*f*itdInterp + pi, 2*pi) - pi)/2)`;
at or above 1500 Hz, `ipd = cmplxf(0, 0)`. -/
noncomputable def interpTriPS_ipd (f itdInterp : ℝ) : ℂ :=
  Complex.I * ((if f < 1500 then
    (matlabFmodR (2 * Real.pi * f * itdInterp + Real.pi) (2 * Real.pi)
      - Real.pi) / 2
  else 0 : ℝ) : ℂ)

/-- Embedding of the per-band, per-ear output of the `INTERP_TRI_PS` branch
(roombinauraliser_internal.c, lines 121-122):
`h[0] = crmulf(cexpf(ipd), magInterp_left)` and
`h[1] = crmulf(conjf(cexpf(ipd)), magInterp_right)`. -/
noncomputable def interpTriPS_h (weights itds3 magL magR : Fin 3 → ℝ) (f : ℝ) :
    ℂ × ℂ :=
  (Complex.exp (interpTriPS_ipd f (interpTriPS_itdInterp weights itds3))
      * ↑(interpTriPS_magInterp weights magL),
   (starRingEnd ℂ) (Complex.exp (interpTriPS_ipd f (interpTriPS_itdInterp weights itds3)))
      * ↑(interpTriPS_magInterp weights magR))

theorem conj_exp_I_mul (ψ : ℝ) :
    (starRingEnd ℂ) (Complex.exp (Complex.I * (ψ : ℂ)))
      = Complex.exp (-(Complex.I * (ψ : ℂ))) := by
  rw [← Complex.exp_conj]
  congr 1
  simp [map_mul, Complex.conj_I, Complex.conj_ofReal, neg_mul]

/-- Claim C2: in `INTERP_TRI_PS` interpolation, for every subband with centre
frequency below 1500 Hz the applied inter-aural phase is
`phase = (wrap(2*pi*f*itdInterp + pi, 2*pi) - pi)/2`, applied as `+phase` to
the left-ear coefficient and as the complex conjugate (`-phase`) to the
right-ear coefficient; at or above 1500 Hz zero phase difference is applied.
The output per ear equals the interpolated magnitude times
`exp(j*phase_for_that_ear)`. -/
theorem interpTriPS_phase_reconstruction
    (weights itds3 magL magR : Fin 3 → ℝ) (f : ℝ) :
    interpTriPS_h weights itds3 magL magR f =
      (↑(interpTriPS_magInterp weights magL)
          * Complex.exp (Complex.I * ((if f < 1500 then
              (matlabFmodR (2 * Real.pi * f * interpTriPS_itdInterp weights itds3
                + Real.pi) (2 * Real.pi) - Real.pi) / 2
            else 0 : ℝ) : ℂ)),
       ↑(interpTriPS_magInterp weights magR)
          * Complex.exp (-(Complex.I * ((if f < 1500 then
              (matlabFmodR (2 * Real.pi * f * interpTriPS_itdInterp weights itds3
                + Real.pi) (2 * Real.pi) - Real.pi) / 2
            else 0 : ℝ) : ℂ)))) := by
  simp only [interpTriPS_h, interpTriPS_ipd, Prod.mk.injEq]
  exact ⟨mul_comm _ _, by rw [conj_exp_I_mul]; exact mul_comm _ _⟩

end RoomBinauraliser
